import Mathlib

/-!
Shallow embedding of the density-estimation core of the DADApy repository
(files `duly/_base.py` and `duly/density_estimation_obsolete.py`), together
with theorems settling the specification claims about it.

Numeric values are idealized as real numbers; numpy arrays become total
functions out of `ℕ` (entries outside the array's extent are irrelevant
to every theorem below); Python attributes that start out as `None` and
are later assigned become `Option`-valued fields.

External collaborators that are not part of the repository sources
(the cython `_nrmaxl` Newton-Raphson routine, the cython neighbour-index
builder, scipy's sparse `spsolve` and dense `pinvh`) enter as explicit
function parameters or as hypotheses modelled from the spec, as noted at
each definition.
-/

noncomputable section

open scoped BigOperators
open Classical

/-- State of a `DensityEstimation` session: the fields assigned in
`DensityEstimation.__init__` (and the inherited `Base`/`IdEstimation`
inputs it reads: `N`, `maxk`, `distances`, `dist_indices`, `X`, `dims`,
`intrinsic_dim`, `period`).  The fourteen cache attributes set to `None`
in `__init__` are `Option`-valued.  `A` and `B` are the dense matrix and
pseudo-inverse attributes some estimators assign. -/
structure DE where
  N : ℕ := 0
  dims : ℕ := 0
  maxk : ℕ := 0
  intrinsic_dim : ℝ := 0
  period : Option ℝ := none
  X : ℕ → ℕ → ℝ := fun _ _ => 0
  distances : ℕ → ℕ → ℝ := fun _ _ => 0
  dist_indices : ℕ → ℕ → ℕ := fun _ _ => 0
  verb : Bool := false
  kstar : Option (ℕ → ℕ) := none
  neigh_vector_diffs : Option (ℕ → ℕ → ℝ) := none
  nind_list : Option (List (ℕ × ℕ)) := none
  nind_iptr : Option (ℕ → ℕ) := none
  nind_mat : Option Unit := none
  common_neighs : Option (ℕ → ℕ) := none
  dc : Option (ℕ → ℝ) := none
  log_den : Option (ℕ → ℝ) := none
  log_den_err : Option (ℕ → ℝ) := none
  grads : Option (ℕ → ℕ → ℝ) := none
  grads_var : Option (ℕ → ℕ → ℕ → ℝ) := none
  Fij_list : Option (ℕ → ℕ → ℝ) := none
  Fij_var_list : Option (ℕ → ℕ → ℝ) := none
  Fij_array : Option (ℕ → ℝ) := none
  Fij_var_array : Option (ℕ → ℝ) := none
  check_grads_covmat : Bool := false
  A : Option (ℕ → ℕ → ℝ) := none
  B : Option (ℕ → ℕ → ℝ) := none

/-- The `kstar` array as read by the estimators (which only run once it
has been assigned; the default is irrelevant to every theorem). -/
def DE.ks (s : DE) : ℕ → ℕ := s.kstar.getD (fun _ => 0)

/-- The flattened neighbour-pair list `nind_list` as read by the
gCorr-family estimators. -/
def DE.elist (s : DE) : List (ℕ × ℕ) := s.nind_list.getD []

/-- Pair number `n` of `nind_list`. -/
def DE.edge (s : DE) (n : ℕ) : ℕ × ℕ := s.elist.getD n (0, 0)

/-- The `Fij_array` of per-pair deltaF estimates as read by gCorr. -/
def DE.fij (s : DE) : ℕ → ℝ := s.Fij_array.getD (fun _ => 0)

/-- The `Fij_var_array` of per-pair deltaF variances as read by gCorr. -/
def DE.fvar (s : DE) : ℕ → ℝ := s.Fij_var_array.getD (fun _ => 0)

/-- The `neigh_vector_diffs` array: row `n` is the displacement
`x_j - x_i` for pair number `n` of `nind_list`. -/
def DE.vdiff (s : DE) : ℕ → ℕ → ℝ := s.neigh_vector_diffs.getD (fun _ _ => 0)

/-- The `common_neighs` array: entry `n` counts the neighbours common to
the two endpoints of pair number `n`. -/
def DE.cneigh (s : DE) : ℕ → ℕ := s.common_neighs.getD (fun _ => 0)

/-- The `grads` array: row `p` is the estimated log-density gradient at
point `p`. -/
def DE.gr (s : DE) : ℕ → ℕ → ℝ := s.grads.getD (fun _ _ => 0)

/-- The `grads_var` array: slice `p` is the covariance matrix of the
gradient estimate at point `p`. -/
def DE.grv (s : DE) : ℕ → ℕ → ℕ → ℝ := s.grads_var.getD (fun _ _ _ => 0)

/-- `log_den[i]` after an estimator ran (0 if still unassigned). -/
def DE.logDenAt (s : DE) (i : ℕ) : ℝ := (s.log_den.getD (fun _ => 0)) i

/-- `log_den_err[i]` after an estimator ran (0 if still unassigned). -/
def DE.logDenErrAt (s : DE) (i : ℕ) : ℝ := (s.log_den_err.getD (fun _ => 0)) i

/-- `dc[i]` after an estimator ran (0 if still unassigned). -/
def DE.dcAt (s : DE) (i : ℕ) : ℝ := (s.dc.getD (fun _ => 0)) i

/-- The argument to `set_kstar`: a scalar or a per-point integer array. -/
inductive KArg where
  | scalar : ℕ → KArg
  | array : (ℕ → ℕ) → KArg

/-- `set_kstar` (density_estimation_obsolete.py lines 72-99): assigns
`kstar` (broadcasting a scalar with `np.full(self.N, k)`) and resets the
fourteen dependent cache attributes to `None`. -/
def set_kstar (s : DE) (k : KArg) : DE :=
  { s with
    kstar := some (match k with
      | KArg.scalar k0 => fun _ => k0
      | KArg.array ks => ks)
    neigh_vector_diffs := none
    nind_list := none
    nind_iptr := none
    nind_mat := none
    common_neighs := none
    dc := none
    log_den := none
    log_den_err := none
    grads := none
    grads_var := none
    Fij_list := none
    Fij_var_list := none
    Fij_array := none
    Fij_var_array := none }

/-- The unit-ball volume prefactor as the source computes it:
`np.exp(d / 2.0 * np.log(np.pi) - gammaln((d + 2) / 2))`. -/
def prefactor (d : ℝ) : ℝ :=
  Real.exp (d / 2 * Real.log Real.pi - Real.log (Real.Gamma ((d + 2) / 2)))

/-- The volume of the `d`-dimensional unit ball as the spec writes it:
`V_d = pi ^ (d / 2) / Gamma (d / 2 + 1)`. -/
def Vd (d : ℝ) : ℝ := Real.pi ^ (d / 2) / Real.Gamma (d / 2 + 1)

/-- The per-point value accumulated by the `compute_density_kNN` loop
before the global `log_den -= np.log(self.N)` normalisation. -/
def knn_log_den_raw (s : DE) (k i : ℕ) : ℝ :=
  Real.log k -
    (Real.log (prefactor s.intrinsic_dim) +
      s.intrinsic_dim * Real.log (s.distances i k))

/-- `compute_density_kNN` (lines 103-148): `set_kstar(k)`, then per point
`dc[i] = distances[i, k]`, `log_den[i] = log k - (log prefactor +
d * log distances[i, k])`, `log_den_err[i] = 1 / sqrt k`, and finally
`log_den -= log N`. -/
def compute_density_kNN (s : DE) (k : ℕ) : DE :=
  { set_kstar s (KArg.scalar k) with
    log_den := some (fun i => knn_log_den_raw s k i - Real.log s.N)
    log_den_err := some (fun _ => 1 / Real.sqrt k)
    dc := some (fun i => s.distances i k) }

/-- The per-point value accumulated by the `compute_density_kstarNN` loop
before the global `log_den -= np.log(self.N)` normalisation. -/
def kstarNN_log_den_raw (s : DE) (i : ℕ) : ℝ :=
  Real.log (s.ks i) - Real.log (prefactor s.intrinsic_dim) -
    s.intrinsic_dim * Real.log (s.distances i (s.ks i))

/-- `compute_density_kstarNN` (lines 278-325): per point with
`k = kstar[i]`, `dc[i] = distances[i, k]`, `log_den[i] = log k -
log prefactor - d * log distances[i, k]`, `log_den_err[i] = 1 / sqrt k`,
then `log_den -= log N`.  (The memoized `compute_kstar` call on a fresh
session delegates to external cython code; the embedding reads the
already-assigned `kstar`.) -/
def compute_density_kstarNN (s : DE) : DE :=
  { s with
    log_den := some (fun i => kstarNN_log_den_raw s i - Real.log s.N)
    log_den_err := some (fun i => 1 / Real.sqrt (s.ks i))
    dc := some (fun i => s.distances i (s.ks i)) }

/-- `compute_density_kpeaks` (lines 329-361): per point with
`k = kstar[i]`, `dc[i] = distances[i, k]`, `log_den[i] = k`, and
`log_den_err[i] = sqrt((sum over j in 1..k-1 of (kstar[jj] - k)^2) / k)`
with `jj = dist_indices[i, j]`.  No `log N` subtraction follows the loop
in this estimator. -/
def compute_density_kpeaks (s : DE) : DE :=
  { s with
    log_den := some (fun i => (s.ks i : ℝ))
    log_den_err := some (fun i =>
      Real.sqrt ((∑ j ∈ Finset.Ico 1 (s.ks i),
        ((s.ks (s.dist_indices i j) : ℝ) - (s.ks i : ℝ)) ^ 2) / (s.ks i : ℝ)))
    dc := some (fun i => s.distances i (s.ks i)) }

/-- Shell volume `vi[j]` built by the `compute_density_PAk` inner loop:
`prefactor * (distances[i, j+1] ** d - distances[i, j] ** d)`. -/
def pakVi (s : DE) (i j : ℕ) : ℝ :=
  prefactor s.intrinsic_dim *
    (s.distances i (j + 1) ^ s.intrinsic_dim -
      s.distances i j ^ s.intrinsic_dim)

/-- The plain kstar-NN value `rr` that `compute_density_PAk` computes
first and falls back to on shell-volume underflow. -/
def pakRR (s : DE) (i : ℕ) : ℝ :=
  Real.log (s.ks i) -
    (Real.log (prefactor s.intrinsic_dim) +
      s.intrinsic_dim * Real.log (s.distances i (s.ks i)))

/-- The underflow test of the `compute_density_PAk` inner loop: some
shell volume `vi[j]`, `j < kstar[i]`, is below `1.0e-300` (the loop
breaks at the first such `j` and sets the flag `knn = 1`; the flag is 1
exactly when such a `j` exists). -/
def pakUnderflow (s : DE) (i : ℕ) : Prop :=
  ∃ j < s.ks i, pakVi s i j < 1e-300

/-- `log_den[i]` of `compute_density_PAk` before the global `log N`
subtraction: the Newton-Raphson maximizer `_nrmaxl(rr, kstar[i], vi,
maxk)` unless a shell volume underflowed, in which case `rr`.  The
cython routine `_nrmaxl` is not part of the repository sources and is
abstracted as the parameter `nr`. -/
def pakLogDenPre (s : DE) (nr : ℝ → ℕ → (ℕ → ℝ) → ℕ → ℝ) (i : ℕ) : ℝ :=
  if pakUnderflow s i then pakRR s i
  else nr (pakRR s i) (s.ks i) (fun j => pakVi s i j) s.maxk

/-- `compute_density_PAk` (lines 428-493): per point the Newton-Raphson
value with underflow fallback, `log_den_err[i] =
sqrt((4 kstar[i] + 2) / (kstar[i] (kstar[i] - 1)))`,
`dc[i] = distances[i, kstar[i]]`, then `log_den -= log N`. -/
def compute_density_PAk (nr : ℝ → ℕ → (ℕ → ℝ) → ℕ → ℝ) (s : DE) : DE :=
  { s with
    log_den := some (fun i => pakLogDenPre s nr i - Real.log s.N)
    log_den_err := some (fun i =>
      Real.sqrt ((4 * (s.ks i : ℝ) + 2) /
        ((s.ks i : ℝ) * ((s.ks i : ℝ) - 1))))
    dc := some (fun i => s.distances i (s.ks i)) }

/-- The sparse-matrix write pattern of the gCorr assembly loops: starting
from a zero `lil_matrix`, entry `(i, j)` is written once for each pair
`(i, j)` of `nind_list`, receiving the value `v nspar` for the pair's
position `nspar` (the pair list is deduplicated, so the first index
found is the writing one). -/
def entryMat (E : List (ℕ × ℕ)) (v : ℕ → ℝ) (i j : ℕ) : ℝ :=
  if (i, j) ∈ E then v (E.indexOf (i, j)) else 0

/-- The redundancy factor of `compute_density_gCorr` for pair `n`:
`sqrt(kstar[nind_list[n, 0]] * kstar[nind_list[n, 1]])`. -/
def gcorrRed (s : DE) (n : ℕ) : ℝ :=
  Real.sqrt ((s.ks (s.edge n).1 : ℝ) * (s.ks (s.edge n).2 : ℝ))

/-- The per-pair weight `tmp` of the gCorr assembly:
`1.0 / Fij_var_array[n] / redundancy[n]` when `use_variance`, else
`1.0 / redundancy[n]`. -/
def gcorrW (s : DE) (uv : Bool) (n : ℕ) : ℝ :=
  if uv then 1 / s.fvar n / gcorrRed s n else 1 / gcorrRed s n

/-- The per-pair value written into `supp_deltaF` by
`compute_density_gCorr`: `Fij_array[n] * tmp` when `use_variance`, and
the unweighted `Fij_array[n]` otherwise (source line 798). -/
def gcorrSuppVal (s : DE) (uv : Bool) (n : ℕ) : ℝ :=
  if uv then s.fij n * gcorrW s true n else s.fij n

/-- The symmetrized off-diagonal matrix `A + A.transpose()` of
`compute_density_gCorr` (before `setdiag`). -/
def gcorrAsym (s : DE) (uv : Bool) (i j : ℕ) : ℝ :=
  entryMat s.elist (fun n => -gcorrW s uv n) i j +
    entryMat s.elist (fun n => -gcorrW s uv n) j i

/-- The diagonal written by `A.setdiag(diag)`:
`diag = -A.sum(axis=1)` over the symmetrized matrix. -/
def gcorrDiag (s : DE) (uv : Bool) (i : ℕ) : ℝ :=
  -∑ j ∈ Finset.range s.N, gcorrAsym s uv i j

/-- The assembled gCorr matrix after `setdiag`. -/
def gcorrA (s : DE) (uv : Bool) (i j : ℕ) : ℝ :=
  if i = j then gcorrDiag s uv i else gcorrAsym s uv i j

/-- The `supp_deltaF` sparse matrix of `compute_density_gCorr`. -/
def gcorrSupp (s : DE) (uv : Bool) (i j : ℕ) : ℝ :=
  entryMat s.elist (gcorrSuppVal s uv) i j

/-- The right-hand side `deltaFcum = supp_deltaF.sum(axis=0) -
supp_deltaF.sum(axis=1)` (column sums minus row sums). -/
def gcorrDeltaFcum (s : DE) (uv : Bool) (i : ℕ) : ℝ :=
  (∑ j ∈ Finset.range s.N, gcorrSupp s uv j i) -
    ∑ j ∈ Finset.range s.N, gcorrSupp s uv i j

/-- A net flow at `i` over the pair graph with per-pair edge values `v`:
incoming minus outgoing.  Instantiated both with the source's values and
with the spec's claimed weighting for comparison. -/
def gcorrFlowWith (s : DE) (v : ℕ → ℝ) (i : ℕ) : ℝ :=
  (∑ j ∈ Finset.range s.N, entryMat s.elist v j i) -
    ∑ j ∈ Finset.range s.N, entryMat s.elist v i j

/-- Modelled from the spec: the right-hand side the spec claims for
gCorr, "net incoming minus outgoing deltaF flow at i weighted by the
same per-edge weight used in A".  For comparison with the source's
`gcorrDeltaFcum`. -/
def gcorrRhsSpec (s : DE) (uv : Bool) (i : ℕ) : ℝ :=
  gcorrFlowWith s (fun n => s.fij n * gcorrW s uv n) i

/-- `compute_density_gCorr` (lines 763-827): assembles `A` and
`deltaFcum` as above, solves the sparse system (`spsolve`, external to
the repository, abstracted as `solve`), stores the dense `A`, its
pseudo-inverse `B` (`pinvh`, external, abstracted as `pinv`), and
`log_den_err[i] = sqrt(B[i, i])`.  `dc` is not assigned by this
estimator, and no `log N` subtraction is applied to the solution. -/
def compute_density_gCorr (solve : (ℕ → ℕ → ℝ) → (ℕ → ℝ) → ℕ → ℝ)
    (pinv : (ℕ → ℕ → ℝ) → ℕ → ℕ → ℝ) (s : DE) (uv : Bool) : DE :=
  { s with
    log_den := some (solve (gcorrA s uv) (gcorrDeltaFcum s uv))
    A := some (gcorrA s uv)
    B := some (pinv (gcorrA s uv))
    log_den_err := some (fun i => Real.sqrt (pinv (gcorrA s uv) i i)) }

/-- The `chi` argument of `compute_deltaFs_grads_semisum`: the string
`"auto"` or a numeric value. -/
inductive ChiArg where
  | auto : ChiArg
  | num : ℝ → ChiArg

/-- The automatic per-pair correlation estimate of
`compute_deltaFs_grads_semisum`:
`chi = common_neighs / (k1 + k2 - common_neighs)`. -/
def semisumChiAuto (s : DE) (n : ℕ) : ℝ :=
  (s.cneigh n : ℝ) /
    ((s.ks (s.edge n).1 : ℝ) + (s.ks (s.edge n).2 : ℝ) - (s.cneigh n : ℝ))

/-- `Fij_array[n]` of `compute_deltaFs_grads_semisum`:
`0.5 * einsum("ij, ij -> i", g1 + g2, neigh_vector_diffs)` at row `n`. -/
def semisumFij (s : DE) (n : ℕ) : ℝ :=
  0.5 * ∑ c ∈ Finset.range s.dims,
    (s.gr (s.edge n).1 c + s.gr (s.edge n).2 c) * s.vdiff n c

/-- The quadratic form `vari`/`varj` of `compute_deltaFs_grads_semisum`:
`einsum("ij, ij -> i", diffs, einsum("ijk, ik -> ij", g_var, diffs))`
at row `n` with the covariance of point `p`, i.e.
`(x_j - x_i)^T Cov_p (x_j - x_i)`. -/
def quadForm (s : DE) (p n : ℕ) : ℝ :=
  ∑ c ∈ Finset.range s.dims,
    s.vdiff n c * ∑ c2 ∈ Finset.range s.dims, s.grv p c c2 * s.vdiff n c2

/-- `Fij_var_array[n]` of `compute_deltaFs_grads_semisum` for a given
per-pair correlation function `chif`:
`0.25 * (vari + varj + 2 * chi * sqrt(vari * varj))`. -/
def semisumVarWith (s : DE) (chif : ℕ → ℝ) (n : ℕ) : ℝ :=
  0.25 * (quadForm s (s.edge n).1 n + quadForm s (s.edge n).2 n +
    2 * chif n *
      Real.sqrt (quadForm s (s.edge n).1 n * quadForm s (s.edge n).2 n))

/-- `compute_deltaFs_grads_semisum` (lines 1292-1363): with the vector
differences, gradients, covariances and common-neighbour counts already
computed (their builders are external cython code; the embedding reads
the assigned arrays), assigns `Fij_array` and `Fij_var_array`.  A
numeric `chi` outside `[0, 1]` fails the assertion
`assert chi >= 0.0 and chi <= 1.0`. -/
def compute_deltaFs_grads_semisum (s : DE) (chi : ChiArg) :
    Except String DE :=
  match chi with
  | ChiArg.auto =>
      Except.ok { s with
        Fij_array := some (semisumFij s)
        Fij_var_array := some (semisumVarWith s (semisumChiAuto s)) }
  | ChiArg.num c =>
      if 0 ≤ c ∧ c ≤ 1 then
        Except.ok { s with
          Fij_array := some (semisumFij s)
          Fij_var_array := some (semisumVarWith s (fun _ => c)) }
      else Except.error "Invalid value for argument chi"


/-- The CSR row-pointer `nind_iptr` as read by the estimators. -/
def DE.iptr (s : DE) : ℕ → ℕ := s.nind_iptr.getD (fun _ => 0)

/-- The per-point list `Fij_list` as read by the gPAk estimators. -/
def DE.flist (s : DE) : ℕ → ℕ → ℝ := s.Fij_list.getD (fun _ _ => 0)

/-- The per-point list `Fij_var_list` as read by the estimators. -/
def DE.fvlist (s : DE) : ℕ → ℕ → ℝ := s.Fij_var_list.getD (fun _ _ => 0)

/-- The PAk-style error `sqrt((4 k + 2) / (k (k - 1)))`, `k = kstar[i]`. -/
def pak_err (s : DE) (i : ℕ) : ℝ :=
  Real.sqrt ((4 * (s.ks i : ℝ) + 2) / ((s.ks i : ℝ) * ((s.ks i : ℝ) - 1)))

/-- The gradient-corrected volume sum of `compute_density_dF_PAk`
(lines 594-606): sum over `j` in `1..k-1` of
`(r_j^d - r_(j-1)^d) * exp(Fij_array[nind_iptr[i] + j - 1])`. -/
def dfpak_corrected_rk (s : DE) (i : ℕ) : ℝ :=
  ∑ j ∈ Finset.Ico 1 (s.ks i),
    (s.distances i j ^ s.intrinsic_dim -
        s.distances i (j - 1) ^ s.intrinsic_dim) *
      Real.exp (s.fij (s.iptr i + (j - 1)))

/-- `compute_density_dF_PAk` (lines 564-620): per point `log_den[i] =
log k - log prefactor - log corrected_rk`, then `log_den -= log N`;
`log_den_err = 1 / sqrt kstar`; `dc[i] = distances[i, k]`. -/
def compute_density_dF_PAk (s : DE) : DE :=
  { s with
    log_den := some (fun i =>
      Real.log (s.ks i) - Real.log (prefactor s.intrinsic_dim) -
        Real.log (dfpak_corrected_rk s i) - Real.log s.N)
    log_den_err := some (fun i => 1 / Real.sqrt (s.ks i))
    dc := some (fun i => s.distances i (s.ks i)) }

/-- The `mode` argument of `compute_density_gPAk` as a closed enum
("standard", "gPAk+", "g+PAk"; any other string raises ValueError). -/
inductive GPakMode where
  | standard : GPakMode
  | gPAkPlus : GPakMode
  | gPlusPAk : GPakMode

/-- The gradient-corrected volume sum of `compute_density_gPAk` in
"standard" mode (lines 655-665), reading `Fij_list[i][j-1]`. -/
def gpak_corrected_rk (s : DE) (i : ℕ) : ℝ :=
  ∑ j ∈ Finset.Ico 1 (s.ks i),
    (s.distances i j ^ s.intrinsic_dim -
        s.distances i (j - 1) ^ s.intrinsic_dim) *
      Real.exp (s.flist i (j - 1))

/-- `log_den[i]` of the "gPAk+" / "g+PAk" modes before the `log N`
subtraction: the `MLmax_gPAk` / `MLmax_gpPAk` maximization (external
`duly.utils_.mlmax`, abstracted as `ml`) with the same shell-volume
underflow fallback to `rr` as PAk (lines 689-706 and 727-744; the shell
volumes `vi[j-1] = prefactor * (r_j^d - r_(j-1)^d)`, `j = 1..k`, are
the same values `pakVi` indexed from 0). -/
def gpakLogDenPre (s : DE)
    (ml : ℝ → ℕ → (ℕ → ℝ) → (ℕ → ℝ) → ℝ) (i : ℕ) : ℝ :=
  if pakUnderflow s i then pakRR s i
  else ml (pakRR s i) (s.ks i) (fun j => pakVi s i j) (fun j => s.flist i j)

/-- `compute_density_gPAk` (lines 624-759): three modes, each assigning
`log_den` (normalised by `log N`), `log_den_err` and `dc`.  (The
`compute_deltaFs_grad` call feeding `Fij_list` delegates to external
cython code; the embedding reads the assigned list.) -/
def compute_density_gPAk (ml1 ml2 : ℝ → ℕ → (ℕ → ℝ) → (ℕ → ℝ) → ℝ)
    (s : DE) (mode : GPakMode) : DE :=
  match mode with
  | GPakMode.standard =>
      { s with
        log_den := some (fun i =>
          Real.log (s.ks i) - Real.log (prefactor s.intrinsic_dim) -
            Real.log (gpak_corrected_rk s i) - Real.log s.N)
        log_den_err := some (fun i => pak_err s i)
        dc := some (fun i => s.distances i (s.ks i)) }
  | GPakMode.gPAkPlus =>
      { s with
        log_den := some (fun i => gpakLogDenPre s ml1 i - Real.log s.N)
        log_den_err := some (fun i => 1 / Real.sqrt (s.ks i))
        dc := some (fun i => s.distances i (s.ks i)) }
  | GPakMode.gPlusPAk =>
      { s with
        log_den := some (fun i => gpakLogDenPre s ml2 i - Real.log s.N)
        log_den_err := some (fun i => 1 / Real.sqrt (s.ks i))
        dc := some (fun i => s.distances i (s.ks i)) }

/-- The symmetrized common-neighbour matrix of
`compute_density_corr_kstarNN` with `kstar` written onto the diagonal
by `setdiag` (lines 403-417). -/
def corrKstarNN_A (s : DE) (i j : ℕ) : ℝ :=
  if i = j then (s.ks i : ℝ)
  else
    entryMat s.elist (fun n => (s.cneigh n : ℝ) / 2) i j +
      entryMat s.elist (fun n => (s.cneigh n : ℝ) / 2) j i

/-- `compute_density_corr_kstarNN` (lines 365-424): the kstar-NN
log-density (normalised by `log N`), `dc`, the dense `A`, its
pseudo-inverse `B` (external `pinvh`, abstracted as `pinv`) and
`log_den_err = sqrt(diag B)`. -/
def compute_density_corr_kstarNN (pinv : (ℕ → ℕ → ℝ) → ℕ → ℕ → ℝ)
    (s : DE) : DE :=
  { s with
    log_den := some (fun i => kstarNN_log_den_raw s i - Real.log s.N)
    dc := some (fun i => s.distances i (s.ks i))
    A := some (corrKstarNN_A s)
    B := some (pinv (corrKstarNN_A s))
    log_den_err := some (fun i => Real.sqrt (pinv (corrKstarNN_A s) i i)) }

/-- The per-pair value written into `supp_deltaF` by
`compute_density_dF_PAk_gCorr`: `Fij * tmp` when `use_variance`, and
`Fij / redundancy` otherwise (line 892, unlike gCorr's line 798). -/
def dfgSuppVal (s : DE) (uv : Bool) (n : ℕ) : ℝ :=
  if uv then s.fij n * gcorrW s true n else s.fij n / gcorrRed s n

/-- The `supp_deltaF` matrix of `compute_density_dF_PAk_gCorr`. -/
def dfgSupp (s : DE) (uv : Bool) (i j : ℕ) : ℝ :=
  entryMat s.elist (dfgSuppVal s uv) i j

/-- The diagonal of the alpha-blended `dF_PAk_gCorr` system
(lines 894-896): `-A.sum(axis=1) + (1 - alpha) * kstar` with
`A = alpha * (A0 + A0.transpose())`. -/
def dfgDiag (s : DE) (uv : Bool) (alpha : ℝ) (i : ℕ) : ℝ :=
  -(∑ j ∈ Finset.range s.N, alpha * gcorrAsym s uv i j) +
    (1 - alpha) * (s.ks i : ℝ)

/-- The assembled `dF_PAk_gCorr` matrix after `setdiag`. -/
def dfgA (s : DE) (uv : Bool) (alpha : ℝ) (i j : ℕ) : ℝ :=
  if i = j then dfgDiag s uv alpha i else alpha * gcorrAsym s uv i j

/-- The right-hand side of `dF_PAk_gCorr` (lines 902-905):
`alpha * (column sums - row sums of supp_deltaF) + (1 - alpha) * kstar
* log(kstar / corrected_vols)`, where `corrected_vols = prefactor * N *
corrected_rk` (lines 852-866, the same volume sum as dF_PAk). -/
def dfgB (s : DE) (uv : Bool) (alpha : ℝ) (i : ℕ) : ℝ :=
  alpha * ((∑ j ∈ Finset.range s.N, dfgSupp s uv j i) -
      ∑ j ∈ Finset.range s.N, dfgSupp s uv i j) +
    (1 - alpha) * ((s.ks i : ℝ) *
      Real.log ((s.ks i : ℝ) /
        (prefactor s.intrinsic_dim * s.N * dfpak_corrected_rk s i)))

/-- `compute_density_dF_PAk_gCorr` (lines 831-921): assigns `dc`, the
raw solver output as `log_den` (no `log N` subtraction), `A`, `B` and
`log_den_err = sqrt(diag B)`. -/
def compute_density_dF_PAk_gCorr
    (solve : (ℕ → ℕ → ℝ) → (ℕ → ℝ) → ℕ → ℝ)
    (pinv : (ℕ → ℕ → ℝ) → ℕ → ℕ → ℝ) (s : DE) (uv : Bool)
    (alpha : ℝ) : DE :=
  { s with
    dc := some (fun i => s.distances i (s.ks i))
    log_den := some (solve (dfgA s uv alpha) (dfgB s uv alpha))
    A := some (dfgA s uv alpha)
    B := some (pinv (dfgA s uv alpha))
    log_den_err := some (fun i =>
      Real.sqrt (pinv (dfgA s uv alpha) i i)) }

/-- The `Vis` array of `compute_density_kstarNN_gCorr` (line 545). -/
def kstarnnGcorrVis (s : DE) (i : ℕ) : ℝ :=
  prefactor s.intrinsic_dim * s.distances i (s.ks i) ^ s.intrinsic_dim

/-- The initial conditions `Fis` of `compute_density_kstarNN_gCorr`
(lines 548-550). -/
def kstarnnGcorrFis (s : DE) (i : ℕ) : ℝ :=
  Real.log (s.ks i) - Real.log (kstarnnGcorrVis s i)

/-- `compute_density_kstarNN_gCorr` (lines 497-560), on its default
`Fij_type="grad"`, `gauss_approx=False` path (the other settings raise
NotImplementedError/ValueError): the pytorch likelihood maximization
(external `duly.utils_.mlmax_pytorch.maximise`, abstracted as `mx`)
followed by `log_den -= log N`; only `log_den` is assigned
(the `dc` of line 543 is a local variable). -/
def compute_density_kstarNN_gCorr
    (mx : (ℕ → ℝ) → (ℕ → ℕ) → (ℕ → ℝ) → (ℕ → ℕ → ℕ) →
      (ℕ → ℕ → ℝ) → (ℕ → ℕ → ℝ) → ℝ → ℕ → ℝ)
    (s : DE) (alpha : ℝ) : DE :=
  { s with
    log_den := some (fun i =>
      mx (kstarnnGcorrFis s) s.ks (kstarnnGcorrVis s) s.dist_indices
        s.flist s.fvlist alpha i - Real.log s.N) }

/-- The session from which the Gaussian `PAk_gCorr` path assembles its
system: the supplied `(log_den_PAk, log_den_PAk_err)` pair if given,
else the result of the internal `compute_density_PAk` call
(lines 957-962). -/
def pakGcorrBase (nr : ℝ → ℕ → (ℕ → ℝ) → ℕ → ℝ) (s : DE)
    (pak_input : Option ((ℕ → ℝ) × (ℕ → ℝ))) : DE :=
  match pak_input with
  | some p => { s with log_den := some p.1, log_den_err := some p.2 }
  | none => compute_density_PAk nr s

/-- The diagonal of the Gaussian `PAk_gCorr` system (lines 984-987):
`-A.sum(axis=1) + (1 - alpha) / log_den_err ** 2`. -/
def pakGcorrDiag (s1 : DE) (alpha : ℝ) (i : ℕ) : ℝ :=
  -(∑ j ∈ Finset.range s1.N, alpha * gcorrAsym s1 true i j) +
    (1 - alpha) / s1.logDenErrAt i ^ 2

/-- The assembled Gaussian `PAk_gCorr` matrix after `setdiag`. -/
def pakGcorrA (s1 : DE) (alpha : ℝ) (i j : ℕ) : ℝ :=
  if i = j then pakGcorrDiag s1 alpha i else alpha * gcorrAsym s1 true i j

/-- The right-hand side of the Gaussian `PAk_gCorr` system
(lines 991-998): `alpha * deltaFcum + (1 - alpha) * log_den /
log_den_err ** 2`. -/
def pakGcorrB (s1 : DE) (alpha : ℝ) (i : ℕ) : ℝ :=
  alpha * gcorrDeltaFcum s1 true i +
    (1 - alpha) * s1.logDenAt i / s1.logDenErrAt i ^ 2

/-- `compute_density_PAk_gCorr` (lines 924-1053).  Gaussian path:
anchor on the PAk density field, assemble and solve, assign the raw
solver output as `log_den` (no `log N` subtraction) plus `A`, `B` and
`log_den_err = sqrt(diag B)`.  SGD path: pytorch `maximise_wPAk`
(external, abstracted as `mwp`) on `rr`, the shell volumes and the
`Fij`/`Fij_var` CSR slices, then `log_den -= log N`; only `log_den` is
assigned (the `dc` of line 1021 is a local variable). -/
def compute_density_PAk_gCorr (nr : ℝ → ℕ → (ℕ → ℝ) → ℕ → ℝ)
    (solve : (ℕ → ℕ → ℝ) → (ℕ → ℝ) → ℕ → ℝ)
    (pinv : (ℕ → ℕ → ℝ) → ℕ → ℕ → ℝ)
    (mwp : (ℕ → ℝ) → (ℕ → ℕ) → (ℕ → ℕ → ℝ) → (ℕ → ℕ → ℕ) →
      (ℕ → ℕ → ℝ) → (ℕ → ℕ → ℝ) → ℝ → ℕ → ℝ)
    (s : DE) (gauss_approx : Bool) (alpha : ℝ)
    (pak_input : Option ((ℕ → ℝ) × (ℕ → ℝ))) : DE :=
  if gauss_approx then
    let s1 := pakGcorrBase nr s pak_input
    { s1 with
      log_den := some (solve (pakGcorrA s1 alpha) (pakGcorrB s1 alpha))
      A := some (pakGcorrA s1 alpha)
      B := some (pinv (pakGcorrA s1 alpha))
      log_den_err := some (fun i =>
        Real.sqrt (pinv (pakGcorrA s1 alpha) i i)) }
  else
    { s with
      log_den := some (fun i =>
        mwp (fun i2 => pakRR s i2) s.ks (fun i2 j => pakVi s i2 j)
          s.dist_indices (fun i2 j => s.fij (s.iptr i2 + j))
          (fun i2 j => s.fvar (s.iptr i2 + j)) alpha i - Real.log s.N) }

/-- `compute_density_PAk_gCorr_flat` (lines 1057-1112): pytorch
`maximise_wPAk_flatF` (external, abstracted as `mwf`) on `rr`, the
PAk-style errors, `kstar`, the shell volumes and the neighbour indices,
then `self.log_den -= log N`; only `log_den` is assigned (the `dc` and
`log_den_err` of lines 1070-1099 are local variables). -/
def compute_density_PAk_gCorr_flat
    (mwf : (ℕ → ℝ) → (ℕ → ℝ) → (ℕ → ℕ) → (ℕ → ℕ → ℝ) →
      (ℕ → ℕ → ℕ) → ℝ → Bool → ℕ → ℝ)
    (s : DE) (alpha : ℝ) (onlyNN : Bool) : DE :=
  { s with
    log_den := some (fun i =>
      mwf (fun i2 => pakRR s i2) (pak_err s) s.ks
        (fun i2 j => pakVi s i2 j) s.dist_indices alpha onlyNN i -
        Real.log s.N) }

/-- Python exceptions that `Base.__init__` can raise in the embedding. -/
inductive PyError where
  | assertionError : PyError
  | nameError : PyError
  | indexError : PyError
deriving DecidableEq

/-- The `distances` argument of `Base.__init__`: either a
`(distance matrix, index matrix)` tuple or a square distance matrix.
Entry values are abstracted to `ℤ` (only shapes and row identities
matter to the claims below). -/
inductive DistArg where
  | pair : List (List ℤ) → List (List ℤ) → DistArg
  | square : List (List ℤ) → DistArg

/-- The attributes `Base.__init__` assigns (unassigned means `none`). -/
structure BaseState where
  X : Option (List (List ℤ)) := none
  maxk : Option ℕ := none
  dims : Option ℕ := none
  Nele : Option ℕ := none
  distances : Option (List (List ℤ)) := none
  dist_indices : Option (List (List ℤ)) := none
deriving DecidableEq

/-- `shape[0]` of a row-list matrix. -/
def shape0 (m : List (List ℤ)) : ℕ := m.length

/-- `shape[1]` of a row-list matrix. -/
def shape1 (m : List (List ℤ)) : ℕ := (m.headD []).length

/-- The composition `np.sort(np.unique(xs, return_index=True)[1])` on the
flattened coordinate array: `np.unique` (without an `axis` argument)
flattens its input and returns, for each distinct value, the index of its
first occurrence in the flattened array; sorting those indices ascending
yields exactly the ascending list of positions that are the first
occurrence of their value. -/
def npUniqueSortedIdx (xs : List ℤ) : List ℕ :=
  (List.range xs.length).filter (fun i => xs.indexOf (xs.getD i 0) = i)

/-- The `coordinates is not None` block of `Base.__init__` (lines 54-81)
with `remove_identical_points` true: `_, idx = np.unique(self.X,
return_index=True); self.X = self.X[np.sort(idx)]` — note the missing
`axis=0`: the indices are positions in the flattened value array, used
to index rows; an index beyond the row count raises `IndexError`. -/
def coordsBlock (X : List (List ℤ)) (maxk : Option ℕ) (rip : Bool)
    (st : BaseState) : Except PyError BaseState :=
  if rip then
    let idx := npUniqueSortedIdx X.flatten
    if idx.all (fun t => t < X.length) then
      let X2 := idx.map (fun t => X.getD t [])
      Except.ok { st with
        X := some X2
        Nele := some X2.length
        dims := some (shape1 X)
        distances := none
        maxk := some (maxk.getD (X2.length - 1)) }
    else Except.error PyError.indexError
  else
    Except.ok { st with
      X := some X
      Nele := some X.length
      dims := some (shape1 X)
      distances := none
      maxk := some (maxk.getD (X.length - 1)) }

/-- The tuple branch of the `distances is not None` block (lines 84-108).
After the shape assertion, the `maxk` defaulting and the assignments of
`Nele` and the sliced `distances`, the assignment of `dist_indices`
evaluates the conditional expression `distances[1][:, :maxk+1] if
is_ndarray else distances[1].numpy().shape[0]`; the name `is_ndarray`
is never bound (its defining statement at line 92 is commented out), so
Python raises `NameError` here on every execution of this branch. -/
def distsBlockPair (D I : List (List ℤ)) (st : BaseState) :
    Except PyError BaseState :=
  if shape0 D = shape0 I then
    let maxk2 := st.maxk.getD (shape1 D - 1)
    let _sliced := D.map (fun r => r.take (maxk2 + 1))
    Except.error PyError.nameError
  else Except.error PyError.assertionError

/-- The square-matrix branch of the `distances is not None` block
(lines 110-128).  `from_all_distances_to_nndistances` lives in
`duly/utils_/utils.py`, outside the provided sources, and is abstracted
as the parameter `fads`. -/
def distsBlockSquare
    (fads : List (List ℤ) → ℕ → List (List ℤ) × List (List ℤ))
    (D : List (List ℤ)) (st : BaseState) : Except PyError BaseState :=
  if shape0 D = shape1 D then
    let maxk2 := st.maxk.getD (shape1 D - 1)
    let p := fads D maxk2
    Except.ok { st with
      Nele := some (shape0 D)
      maxk := some maxk2
      dist_indices := some p.1
      distances := some p.2 }
  else Except.error PyError.assertionError

/-- `Base.__init__` (lines 38-128): stores the raw arguments, then runs
the coordinates block and the distances block in order. -/
def base_init (fads : List (List ℤ) → ℕ → List (List ℤ) × List (List ℤ))
    (coordinates : Option (List (List ℤ))) (distances : Option DistArg)
    (maxk : Option ℕ) (rip : Bool) : Except PyError BaseState := do
  let st0 : BaseState := { X := coordinates, maxk := maxk }
  let st1 ← match coordinates with
    | none => Except.ok st0
    | some X0 => coordsBlock X0 maxk rip st0
  match distances with
  | none => Except.ok st1
  | some (DistArg.pair D I) => distsBlockPair D I st1
  | some (DistArg.square D) => distsBlockSquare fads D st1

/-- The source's log-gamma prefactor equals the spec's closed-form
unit-ball volume, for positive intrinsic dimension. -/
lemma prefactor_eq_Vd (d : ℝ) (hd : 0 < d) : prefactor d = Vd d := by
  unfold prefactor Vd
  rw [show (d + 2) / 2 = d / 2 + 1 by ring]
  rw [Real.exp_sub, Real.exp_log (Real.Gamma_pos_of_pos (by linarith))]
  rw [Real.rpow_def_of_pos Real.pi_pos]
  ring_nf

/-- A concrete session used to instantiate hypotheses: 2 points, all
pairwise distances 1, intrinsic dimension 2, `kstar` fixed at 2. -/
def pakS0 : DE :=
  { N := 2
    dims := 2
    maxk := 3
    intrinsic_dim := 2
    distances := fun _ _ => 1
    kstar := some (fun _ => 2) }

/-- A concrete stand-in for the external Newton-Raphson routine. -/
def nr0 : ℝ → ℕ → (ℕ → ℝ) → ℕ → ℝ := fun r _ _ _ => r

/-- A concrete stand-in for the external sparse solver. -/
def solve0 : (ℕ → ℕ → ℝ) → (ℕ → ℝ) → ℕ → ℝ := fun _ b => b

/-- A concrete stand-in for the external dense pseudo-inverse. -/
def pinv0 : (ℕ → ℕ → ℝ) → ℕ → ℕ → ℝ := fun m => m

/-- A concrete stand-in for the external `MLmax_gPAk` / `MLmax_gpPAk`
maximizers. -/
def ml0 : ℝ → ℕ → (ℕ → ℝ) → (ℕ → ℝ) → ℝ := fun r _ _ _ => r

/-- A concrete stand-in for the external pytorch `maximise`. -/
def mx0 : (ℕ → ℝ) → (ℕ → ℕ) → (ℕ → ℝ) → (ℕ → ℕ → ℕ) →
    (ℕ → ℕ → ℝ) → (ℕ → ℕ → ℝ) → ℝ → ℕ → ℝ :=
  fun f _ _ _ _ _ _ => f

/-- A concrete stand-in for the external pytorch `maximise_wPAk`. -/
def mwp0 : (ℕ → ℝ) → (ℕ → ℕ) → (ℕ → ℕ → ℝ) → (ℕ → ℕ → ℕ) →
    (ℕ → ℕ → ℝ) → (ℕ → ℕ → ℝ) → ℝ → ℕ → ℝ :=
  fun f _ _ _ _ _ _ => f

/-- A concrete stand-in for the external pytorch `maximise_wPAk_flatF`. -/
def mwf0 : (ℕ → ℝ) → (ℕ → ℝ) → (ℕ → ℕ) → (ℕ → ℕ → ℝ) →
    (ℕ → ℕ → ℕ) → ℝ → Bool → ℕ → ℝ :=
  fun f _ _ _ _ _ _ => f

/-- C7: `compute_density_kNN` with parameter `k` yields, per point `i`,
`log_den[i] = log k - log V_d - d log r_k(i) - log N` with
`V_d = pi^(d/2) / Gamma(d/2 + 1)` (the log-gamma prefactor equals this
closed form), `log_den_err[i] = 1 / sqrt k`, and `dc[i] = r_k(i)`. -/
theorem knn_density_formula (s : DE) (k i : ℕ)
    (hd : 0 < s.intrinsic_dim) :
    (compute_density_kNN s k).logDenAt i =
        Real.log k - Real.log (Vd s.intrinsic_dim) -
          s.intrinsic_dim * Real.log (s.distances i k) - Real.log s.N ∧
      (compute_density_kNN s k).logDenErrAt i = 1 / Real.sqrt k ∧
      (compute_density_kNN s k).dcAt i = s.distances i k ∧
      prefactor s.intrinsic_dim = Vd s.intrinsic_dim := by
  refine ⟨?_, rfl, rfl, prefactor_eq_Vd _ hd⟩
  show knn_log_den_raw s k i - Real.log s.N = _
  rw [knn_log_den_raw, prefactor_eq_Vd _ hd]
  ring

/-- Witness for C7 at the concrete session `pakS0`, `k = 5`, `i = 0`. -/
theorem knn_density_formula_witness :
    0 < pakS0.intrinsic_dim ∧
      (compute_density_kNN pakS0 5).logDenAt 0 =
        Real.log 5 - Real.log (Vd pakS0.intrinsic_dim) -
          pakS0.intrinsic_dim * Real.log (pakS0.distances 0 5) -
          Real.log pakS0.N := by
  have hd : 0 < pakS0.intrinsic_dim := by norm_num [pakS0]
  refine ⟨hd, ?_⟩
  have h := (knn_density_formula pakS0 5 0 hd).1
  simpa using h

/-- A concrete session for the k-peaks estimator: 2 points, `kstar`
fixed at 1. -/
def kpS1 : DE :=
  { N := 2
    dims := 2
    maxk := 1
    intrinsic_dim := 2
    distances := fun _ _ => 1
    kstar := some (fun _ => 1) }

/-- C1 counterexample: the final log-density is not always the
unnormalized per-point estimate minus `log N`.  On a 2-point session,
`compute_density_kpeaks` stores the surrogate `kstar[0]` itself and
`compute_density_gCorr` stores the raw solver output; both differ from
the claimed value by the nonzero `log 2`. -/
theorem kpeaks_unnormalized_counterexample :
    (compute_density_kpeaks kpS1).logDenAt 0 ≠
        (kpS1.ks 0 : ℝ) - Real.log kpS1.N ∧
      (compute_density_gCorr solve0 pinv0 kpS1 true).logDenAt 0 ≠
        gcorrDeltaFcum kpS1 true 0 - Real.log kpS1.N := by
  have hN : (0 : ℝ) < Real.log kpS1.N := by
    have h2 : (kpS1.N : ℝ) = 2 := by norm_num [kpS1]
    rw [h2]
    exact Real.log_pos (by norm_num)
  constructor
  · have h1 : (compute_density_kpeaks kpS1).logDenAt 0 =
        (kpS1.ks 0 : ℝ) := rfl
    rw [h1]
    intro h
    linarith
  · have h1 : (compute_density_gCorr solve0 pinv0 kpS1 true).logDenAt 0 =
        gcorrDeltaFcum kpS1 true 0 := rfl
    rw [h1]
    intro h
    linarith

/-- C1 amended: `compute_density_kNN`, `compute_density_kstarNN`,
`compute_density_PAk`, all three `compute_density_gPAk` modes,
`compute_density_dF_PAk`, `compute_density_kstarNN_gCorr`,
`compute_density_PAk_gCorr_flat` and the SGD path of
`compute_density_PAk_gCorr` normalize the final log-density by
subtracting `log N` from the per-point estimate;
`compute_density_kpeaks` stores the unnormalized surrogate `kstar[i]`,
and `compute_density_gCorr`, `compute_density_dF_PAk_gCorr` and the
Gaussian path of `compute_density_PAk_gCorr` store the raw linear-solve
output, all with no `log N` subtraction. -/
theorem log_den_normalization_by_estimator (s : DE) (k i : ℕ)
    (nr : ℝ → ℕ → (ℕ → ℝ) → ℕ → ℝ)
    (ml1 ml2 : ℝ → ℕ → (ℕ → ℝ) → (ℕ → ℝ) → ℝ)
    (mx : (ℕ → ℝ) → (ℕ → ℕ) → (ℕ → ℝ) → (ℕ → ℕ → ℕ) →
      (ℕ → ℕ → ℝ) → (ℕ → ℕ → ℝ) → ℝ → ℕ → ℝ)
    (mwp : (ℕ → ℝ) → (ℕ → ℕ) → (ℕ → ℕ → ℝ) → (ℕ → ℕ → ℕ) →
      (ℕ → ℕ → ℝ) → (ℕ → ℕ → ℝ) → ℝ → ℕ → ℝ)
    (mwf : (ℕ → ℝ) → (ℕ → ℝ) → (ℕ → ℕ) → (ℕ → ℕ → ℝ) →
      (ℕ → ℕ → ℕ) → ℝ → Bool → ℕ → ℝ)
    (solve : (ℕ → ℕ → ℝ) → (ℕ → ℝ) → ℕ → ℝ)
    (pinv : (ℕ → ℕ → ℝ) → ℕ → ℕ → ℝ) (uv : Bool) (alpha : ℝ)
    (onlyNN : Bool) (pin : Option ((ℕ → ℝ) × (ℕ → ℝ)))
    (hd : 0 < s.intrinsic_dim) :
    (compute_density_kNN s k).logDenAt i =
        Real.log k - Real.log (Vd s.intrinsic_dim) -
          s.intrinsic_dim * Real.log (s.distances i k) - Real.log s.N ∧
      (compute_density_kstarNN s).logDenAt i =
        Real.log (s.ks i) - Real.log (Vd s.intrinsic_dim) -
          s.intrinsic_dim * Real.log (s.distances i (s.ks i)) -
          Real.log s.N ∧
      (compute_density_PAk nr s).logDenAt i =
        pakLogDenPre s nr i - Real.log s.N ∧
      (compute_density_gPAk ml1 ml2 s GPakMode.standard).logDenAt i =
        Real.log (s.ks i) - Real.log (prefactor s.intrinsic_dim) -
          Real.log (gpak_corrected_rk s i) - Real.log s.N ∧
      (compute_density_gPAk ml1 ml2 s GPakMode.gPAkPlus).logDenAt i =
        gpakLogDenPre s ml1 i - Real.log s.N ∧
      (compute_density_gPAk ml1 ml2 s GPakMode.gPlusPAk).logDenAt i =
        gpakLogDenPre s ml2 i - Real.log s.N ∧
      (compute_density_dF_PAk s).logDenAt i =
        Real.log (s.ks i) - Real.log (prefactor s.intrinsic_dim) -
          Real.log (dfpak_corrected_rk s i) - Real.log s.N ∧
      (compute_density_kstarNN_gCorr mx s alpha).logDenAt i =
        mx (kstarnnGcorrFis s) s.ks (kstarnnGcorrVis s) s.dist_indices
          s.flist s.fvlist alpha i - Real.log s.N ∧
      (compute_density_PAk_gCorr_flat mwf s alpha onlyNN).logDenAt i =
        mwf (fun i2 => pakRR s i2) (pak_err s) s.ks
          (fun i2 j => pakVi s i2 j) s.dist_indices alpha onlyNN i -
          Real.log s.N ∧
      (compute_density_PAk_gCorr nr solve pinv mwp s false alpha
          pin).logDenAt i =
        mwp (fun i2 => pakRR s i2) s.ks (fun i2 j => pakVi s i2 j)
          s.dist_indices (fun i2 j => s.fij (s.iptr i2 + j))
          (fun i2 j => s.fvar (s.iptr i2 + j)) alpha i - Real.log s.N ∧
      (compute_density_kpeaks s).logDenAt i = (s.ks i : ℝ) ∧
      (compute_density_gCorr solve pinv s uv).log_den =
        some (solve (gcorrA s uv) (gcorrDeltaFcum s uv)) ∧
      (compute_density_dF_PAk_gCorr solve pinv s uv alpha).log_den =
        some (solve (dfgA s uv alpha) (dfgB s uv alpha)) ∧
      (compute_density_PAk_gCorr nr solve pinv mwp s true alpha
          pin).log_den =
        some (solve (pakGcorrA (pakGcorrBase nr s pin) alpha)
          (pakGcorrB (pakGcorrBase nr s pin) alpha)) := by
  refine ⟨?_, ?_, rfl, rfl, rfl, rfl, rfl, rfl, rfl, rfl, rfl, rfl,
    rfl, rfl⟩
  · show knn_log_den_raw s k i - Real.log s.N = _
    rw [knn_log_den_raw, prefactor_eq_Vd _ hd]
    ring
  · show kstarNN_log_den_raw s i - Real.log s.N = _
    rw [kstarNN_log_den_raw, prefactor_eq_Vd _ hd]

/-- Witness for the amended C1 at the concrete session `pakS0`. -/
theorem log_den_normalization_witness :
    0 < pakS0.intrinsic_dim ∧
      (compute_density_kpeaks pakS0).logDenAt 0 = (pakS0.ks 0 : ℝ) ∧
      (compute_density_PAk nr0 pakS0).logDenAt 0 =
        pakLogDenPre pakS0 nr0 0 - Real.log pakS0.N ∧
      (compute_density_dF_PAk pakS0).logDenAt 0 =
        Real.log (pakS0.ks 0) -
          Real.log (prefactor pakS0.intrinsic_dim) -
          Real.log (dfpak_corrected_rk pakS0 0) - Real.log pakS0.N := by
  have hd : 0 < pakS0.intrinsic_dim := by norm_num [pakS0]
  obtain ⟨-, -, h3, -, -, -, h7, -, -, -, h11, -, -, -⟩ :=
    log_den_normalization_by_estimator pakS0 5 0 nr0 ml0 ml0 mx0 mwp0
      mwf0 solve0 pinv0 true 1 false none hd
  exact ⟨hd, h11, h3, h7⟩

/-- C2: in `compute_density_PAk`, if some shell volume `vi[j]`,
`j < kstar[i]`, is below `1.0e-300`, the Newton-Raphson maximization is
skipped and point `i` gets the plain kstar-NN value `rr` (before the
global `log N` normalisation, i.e. `rr - log N` after it); otherwise
point `i` gets the Newton-Raphson maximizer.  The branch at `i` depends
only on the shells of point `i`, so the fallback affects only that
point. -/
theorem pak_underflow_fallback (s : DE) (nr : ℝ → ℕ → (ℕ → ℝ) → ℕ → ℝ)
    (i : ℕ) :
    (pakUnderflow s i →
        (compute_density_PAk nr s).logDenAt i =
          pakRR s i - Real.log s.N) ∧
      (¬pakUnderflow s i →
        (compute_density_PAk nr s).logDenAt i =
          nr (pakRR s i) (s.ks i) (fun j => pakVi s i j) s.maxk -
            Real.log s.N) := by
  constructor
  · intro h
    show pakLogDenPre s nr i - Real.log s.N = _
    rw [pakLogDenPre, if_pos h]
  · intro h
    show pakLogDenPre s nr i - Real.log s.N = _
    rw [pakLogDenPre, if_neg h]

/-- Witness for C2 at the concrete session `pakS0`, whose equal
distances make every shell volume zero, hence below `1.0e-300`. -/
theorem pak_underflow_fallback_witness :
    pakUnderflow pakS0 0 ∧
      (compute_density_PAk nr0 pakS0).logDenAt 0 =
        pakRR pakS0 0 - Real.log pakS0.N := by
  have h : pakUnderflow pakS0 0 := by
    refine ⟨0, ?_, ?_⟩
    · show 0 < pakS0.ks 0
      norm_num [pakS0, DE.ks]
    · show pakVi pakS0 0 0 < 1e-300
      have hv : pakVi pakS0 0 0 = 0 := by
        simp [pakVi, pakS0, Real.one_rpow]
      rw [hv]
      norm_num
  exact ⟨h, (pak_underflow_fallback pakS0 nr0 0).1 h⟩

/-- An entry never written by the assembly loop is zero. -/
lemma entryMat_of_not_mem (E : List (ℕ × ℕ)) (v : ℕ → ℝ) (i j : ℕ)
    (h : (i, j) ∉ E) : entryMat E v i j = 0 := by
  rw [entryMat, if_neg h]

/-- C3: in `compute_density_gCorr`, once `A.setdiag(diag)` has run with
`diag = -A.sum(axis=1)` (and before any alpha-regularization, which only
the other gCorr variants add), every row of the assembled matrix sums to
zero.  Hypotheses: the neighbour-pair list (built by external cython
code, modelled from the spec's NeighborPairGraph) contains no self-pair
and only indices below `N`. -/
theorem gcorr_row_sum_zero (s : DE) (uv : Bool) (i : ℕ)
    (h1 : ∀ e ∈ s.elist, e.1 ≠ e.2)
    (h2 : ∀ e ∈ s.elist, e.1 < s.N ∧ e.2 < s.N) :
    ∑ j ∈ Finset.range s.N, gcorrA s uv i j = 0 := by
  by_cases hi : i < s.N
  · have hmem : i ∈ Finset.range s.N := Finset.mem_range.mpr hi
    have hsplit :
        gcorrA s uv i i +
            ∑ j ∈ (Finset.range s.N).erase i, gcorrA s uv i j =
          ∑ j ∈ Finset.range s.N, gcorrA s uv i j :=
      Finset.add_sum_erase _ _ hmem
    have hdiag : gcorrA s uv i i = gcorrDiag s uv i := if_pos rfl
    have hoff : ∀ j ∈ (Finset.range s.N).erase i,
        gcorrA s uv i j = gcorrAsym s uv i j := by
      intro j hj
      exact if_neg (fun hh => (Finset.ne_of_mem_erase hj) hh.symm)
    have hsum_off :
        ∑ j ∈ (Finset.range s.N).erase i, gcorrA s uv i j =
          ∑ j ∈ Finset.range s.N, gcorrAsym s uv i j -
            gcorrAsym s uv i i := by
      rw [Finset.sum_congr rfl hoff]
      exact Finset.sum_erase_eq_sub hmem
    have hii : gcorrAsym s uv i i = 0 := by
      have hnm : (i, i) ∉ s.elist := fun hm => (h1 _ hm) rfl
      rw [gcorrAsym, entryMat_of_not_mem _ _ _ _ hnm]
      ring
    rw [← hsplit, hdiag, hsum_off, hii, gcorrDiag]
    ring
  · refine Finset.sum_eq_zero ?_
    intro j hj
    have hj2 : j < s.N := Finset.mem_range.mp hj
    have hne : i ≠ j := fun hh => hi (hh ▸ hj2)
    have hm1 : (i, j) ∉ s.elist := fun hm => hi (h2 _ hm).1
    have hm2 : (j, i) ∉ s.elist := fun hm => hi (h2 _ hm).2
    rw [gcorrA, if_neg hne, gcorrAsym, entryMat_of_not_mem _ _ _ _ hm1,
      entryMat_of_not_mem _ _ _ _ hm2]
    ring

/-- A concrete gCorr session: 2 points, the single pair `(0, 1)`, unit
`kstar`, deltaF and variance arrays. -/
def sG : DE :=
  { N := 2
    dims := 1
    maxk := 1
    intrinsic_dim := 2
    kstar := some (fun _ => 1)
    nind_list := some [(0, 1)]
    Fij_array := some (fun _ => 1)
    Fij_var_array := some (fun _ => 1) }

/-- Witness for C3 at the concrete session `sG`, row 0. -/
theorem gcorr_row_sum_zero_witness :
    (∀ e ∈ sG.elist, e.1 ≠ e.2) ∧
      ∑ j ∈ Finset.range sG.N, gcorrA sG true 0 j = 0 := by
  refine ⟨by decide, gcorr_row_sum_zero sG true 0 (by decide) (by decide)⟩

/-- C5 amended: for a pair `(i, j)` at position `n` of the deduplicated
pair list (no reverse duplicate), the off-diagonal entry of the gCorr
matrix is `-1 / (Fij_var[n] * sqrt(kstar[i] * kstar[j]))` when
`use_variance` and `-1 / sqrt(kstar[i] * kstar[j])` otherwise; the
right-hand side is the net incoming-minus-outgoing deltaF flow whose
edge terms carry the same weight as `A` when `use_variance` is true,
but are the raw unweighted `Fij` values when `use_variance` is false. -/
theorem gcorr_matrix_and_rhs (s : DE) (i j n : ℕ)
    (hmem : (i, j) ∈ s.elist) (hidx : s.elist.indexOf (i, j) = n)
    (hedge : s.edge n = (i, j)) (hrev : (j, i) ∉ s.elist) (hne : i ≠ j) :
    gcorrA s true i j =
        -(1 / (s.fvar n * Real.sqrt ((s.ks i : ℝ) * (s.ks j : ℝ)))) ∧
      gcorrA s false i j =
        -(1 / Real.sqrt ((s.ks i : ℝ) * (s.ks j : ℝ))) ∧
      (∀ i2, gcorrDeltaFcum s true i2 =
        gcorrFlowWith s (fun m => s.fij m * gcorrW s true m) i2) ∧
      (∀ i2, gcorrDeltaFcum s false i2 = gcorrFlowWith s s.fij i2) := by
  have h0 : ∀ v : ℕ → ℝ, entryMat s.elist v j i = 0 := fun v =>
    entryMat_of_not_mem _ _ _ _ hrev
  refine ⟨?_, ?_, fun i2 => rfl, fun i2 => rfl⟩
  · rw [gcorrA, if_neg hne, gcorrAsym, h0, add_zero, entryMat,
      if_pos hmem]
    show -gcorrW s true (s.elist.indexOf (i, j)) = _
    rw [hidx, gcorrW, if_pos rfl, gcorrRed, hedge, div_div]
  · rw [gcorrA, if_neg hne, gcorrAsym, h0, add_zero, entryMat,
      if_pos hmem]
    show -gcorrW s false (s.elist.indexOf (i, j)) = _
    rw [hidx, gcorrW, if_neg (by simp), gcorrRed, hedge]

/-- Witness for the amended C5 at the concrete session `sG`. -/
theorem gcorr_matrix_and_rhs_witness :
    ((0, 1) ∈ sG.elist) ∧
      gcorrA sG true 0 1 =
        -(1 / (sG.fvar 0 *
          Real.sqrt ((sG.ks 0 : ℝ) * (sG.ks 1 : ℝ)))) := by
  refine ⟨by decide, ?_⟩
  exact (gcorr_matrix_and_rhs sG 0 1 0 (by decide) (by decide) (by decide)
    (by decide) (by decide)).1

/-- A concrete gCorr session with asymmetric `kstar` (1 and 4), so the
redundancy weight `1 / sqrt(1 * 4) = 1 / 2` is not 1. -/
def sCx : DE :=
  { N := 2
    dims := 1
    maxk := 3
    intrinsic_dim := 2
    kstar := some (fun i => if i = 0 then 1 else 4)
    nind_list := some [(0, 1)]
    Fij_array := some (fun _ => 1)
    Fij_var_array := some (fun _ => 1) }

/-- C5 counterexample: with `use_variance=False`, the right-hand side
assembled by `compute_density_gCorr` is NOT the deltaF flow weighted by
the per-edge weight used in `A` (the source stores the unweighted
`Fij_array[nspar]` into `supp_deltaF`, line 798): at the session `sCx`
the actual `deltaFcum[0]` is `-1` while the claimed weighted flow is
`-1/2`. -/
theorem gcorr_rhs_weight_counterexample :
    gcorrDeltaFcum sCx false 0 ≠
      gcorrFlowWith sCx (fun m => sCx.fij m * gcorrW sCx false m) 0 := by
  have hred : gcorrRed sCx 0 = 2 := by
    have h1 : ((sCx.ks (sCx.edge 0).1 : ℝ) * (sCx.ks (sCx.edge 0).2 : ℝ))
        = 4 := by norm_num [sCx, DE.ks, DE.edge, DE.elist]
    rw [gcorrRed, h1, show (4 : ℝ) = 2 ^ 2 by norm_num,
      Real.sqrt_sq (by norm_num)]
  have hflow : ∀ v : ℕ → ℝ, gcorrFlowWith sCx v 0 = -v 0 := by
    intro v
    rw [gcorrFlowWith]
    simp only [Finset.sum_range_succ, Finset.sum_range_zero,
      show sCx.N = 2 from rfl]
    rw [entryMat_of_not_mem sCx.elist v 0 0 (by decide),
      entryMat_of_not_mem sCx.elist v 1 0 (by decide),
      entryMat, if_pos (show ((0 : ℕ), (1 : ℕ)) ∈ sCx.elist by decide),
      show sCx.elist.indexOf ((0 : ℕ), (1 : ℕ)) = 0 by decide]
    ring
  have hL : gcorrDeltaFcum sCx false 0 = -1 := by
    have h1 : gcorrDeltaFcum sCx false 0 = gcorrFlowWith sCx sCx.fij 0 :=
      rfl
    rw [h1, hflow]
    norm_num [DE.fij, sCx]
  have hW : gcorrW sCx false 0 = 1 / 2 := by
    rw [gcorrW, if_neg (by simp), hred]
  have hR : gcorrFlowWith sCx (fun m => sCx.fij m * gcorrW sCx false m) 0
      = -(1 / 2) := by
    rw [hflow]
    show -(sCx.fij 0 * gcorrW sCx false 0) = -(1 / 2)
    rw [hW]
    norm_num [DE.fij, sCx]
  rw [hL, hR]
  norm_num

/-- C4: `compute_deltaFs_grads_semisum` assigns, per pair `n` with
endpoints `(i, j)`, `Fij_array[n] = 0.5 * (grad_i + grad_j) . (x_j - x_i)`
and `Fij_var_array[n] = 0.25 * (Var_i + Var_j + 2 chi sqrt(Var_i Var_j))`
with `Var_p = (x_j - x_i)^T Cov_p (x_j - x_i)`; with `chi = "auto"` the
correlation is `common_neighs[n] / (kstar[i] + kstar[j] -
common_neighs[n])`; a numeric `chi` outside `[0, 1]` fails the
assertion. -/
theorem deltaFs_semisum_formulas (s : DE) (n : ℕ) (c : ℝ) :
    (∃ t, compute_deltaFs_grads_semisum s ChiArg.auto = Except.ok t ∧
        t.fij n = 0.5 * ∑ cc ∈ Finset.range s.dims,
          (s.gr (s.edge n).1 cc + s.gr (s.edge n).2 cc) * s.vdiff n cc ∧
        t.fvar n = 0.25 * (quadForm s (s.edge n).1 n +
          quadForm s (s.edge n).2 n +
          2 * ((s.cneigh n : ℝ) / ((s.ks (s.edge n).1 : ℝ) +
              (s.ks (s.edge n).2 : ℝ) - (s.cneigh n : ℝ))) *
            Real.sqrt (quadForm s (s.edge n).1 n *
              quadForm s (s.edge n).2 n)) ∧
        quadForm s (s.edge n).1 n = ∑ cc ∈ Finset.range s.dims,
          s.vdiff n cc * ∑ c2 ∈ Finset.range s.dims,
            s.grv (s.edge n).1 cc c2 * s.vdiff n c2) ∧
      ((0 ≤ c ∧ c ≤ 1) →
        ∃ t, compute_deltaFs_grads_semisum s (ChiArg.num c) =
            Except.ok t ∧
          t.fvar n = 0.25 * (quadForm s (s.edge n).1 n +
            quadForm s (s.edge n).2 n + 2 * c *
              Real.sqrt (quadForm s (s.edge n).1 n *
                quadForm s (s.edge n).2 n))) ∧
      (¬(0 ≤ c ∧ c ≤ 1) →
        compute_deltaFs_grads_semisum s (ChiArg.num c) =
          Except.error "Invalid value for argument chi") := by
  refine ⟨⟨_, rfl, rfl, rfl, rfl⟩, ?_, ?_⟩
  · intro h
    refine ⟨{ s with
        Fij_array := some (semisumFij s)
        Fij_var_array := some (semisumVarWith s (fun _ => c)) }, ?_, rfl⟩
    simp only [compute_deltaFs_grads_semisum]
    rw [if_pos h]
  · intro h
    simp only [compute_deltaFs_grads_semisum]
    rw [if_neg h]

/-- A concrete session for the deltaF semisum engine: 2 points in one
dimension, one pair, unit gradients, covariances, displacements and
common-neighbour counts. -/
def sDF : DE :=
  { N := 2
    dims := 1
    maxk := 1
    intrinsic_dim := 2
    kstar := some (fun _ => 2)
    nind_list := some [(0, 1)]
    neigh_vector_diffs := some (fun _ _ => 1)
    common_neighs := some (fun _ => 1)
    grads := some (fun _ _ => 1)
    grads_var := some (fun _ _ _ => 1) }

/-- Witness for C4 at the concrete session `sDF` (the auto branch
succeeds and the numeric value `-1` fails the assertion). -/
theorem deltaFs_semisum_formulas_witness :
    (¬((0 : ℝ) ≤ -1 ∧ (-1 : ℝ) ≤ 1)) ∧
      compute_deltaFs_grads_semisum sDF (ChiArg.num (-1)) =
        Except.error "Invalid value for argument chi" ∧
      ∃ t, compute_deltaFs_grads_semisum sDF ChiArg.auto =
        Except.ok t := by
  have h : ¬((0 : ℝ) ≤ -1 ∧ (-1 : ℝ) ≤ 1) := by norm_num
  have hthm := deltaFs_semisum_formulas sDF 0 (-1)
  refine ⟨h, hthm.2.2 h, ?_⟩
  obtain ⟨t, ht, -⟩ := hthm.1
  exact ⟨t, ht⟩

/-- C6: `set_kstar` stores `kstar` (broadcasting a scalar over all
points), resets every downstream derived cache to `None`, and modifies
no other attribute of the session. -/
theorem set_kstar_spec (s : DE) (k : ℕ) (f : ℕ → ℕ) :
    ((set_kstar s (KArg.scalar k)).kstar = some (fun _ => k) ∧
      (set_kstar s (KArg.array f)).kstar = some f) ∧
    (∀ ka : KArg,
      ((set_kstar s ka).neigh_vector_diffs = none ∧
        (set_kstar s ka).nind_list = none ∧
        (set_kstar s ka).nind_iptr = none ∧
        (set_kstar s ka).nind_mat = none ∧
        (set_kstar s ka).common_neighs = none ∧
        (set_kstar s ka).dc = none ∧
        (set_kstar s ka).log_den = none ∧
        (set_kstar s ka).log_den_err = none ∧
        (set_kstar s ka).grads = none ∧
        (set_kstar s ka).grads_var = none ∧
        (set_kstar s ka).Fij_list = none ∧
        (set_kstar s ka).Fij_var_list = none ∧
        (set_kstar s ka).Fij_array = none ∧
        (set_kstar s ka).Fij_var_array = none) ∧
      ((set_kstar s ka).N = s.N ∧
        (set_kstar s ka).dims = s.dims ∧
        (set_kstar s ka).maxk = s.maxk ∧
        (set_kstar s ka).intrinsic_dim = s.intrinsic_dim ∧
        (set_kstar s ka).period = s.period ∧
        (set_kstar s ka).X = s.X ∧
        (set_kstar s ka).distances = s.distances ∧
        (set_kstar s ka).dist_indices = s.dist_indices ∧
        (set_kstar s ka).verb = s.verb ∧
        (set_kstar s ka).check_grads_covmat = s.check_grads_covmat ∧
        (set_kstar s ka).A = s.A ∧
        (set_kstar s ka).B = s.B)) := by
  exact ⟨⟨rfl, rfl⟩, fun ka =>
    ⟨⟨rfl, rfl, rfl, rfl, rfl, rfl, rfl, rfl, rfl, rfl, rfl, rfl, rfl,
      rfl⟩,
      ⟨rfl, rfl, rfl, rfl, rfl, rfl, rfl, rfl, rfl, rfl, rfl, rfl⟩⟩⟩

/-- C8 counterexample: `compute_density_gCorr` does not assign `dc`.
On the concrete session `sG` (whose `dc` is still unassigned), `dc`
remains unassigned after the estimator returns, so the output triple is
not wholly overwritten. -/
theorem gcorr_dc_not_assigned :
    (compute_density_gCorr solve0 pinv0 sG true).dc = none ∧
      (compute_density_gCorr solve0 pinv0 sG true).log_den.isSome
        = true := by
  exact ⟨rfl, rfl⟩

/-- C8 amended: `compute_density_kNN`, `kstarNN`, `kpeaks`, `PAk`,
`dF_PAk`, the three `gPAk` modes, `corr_kstarNN` and `dF_PAk_gCorr`
freshly assign all of `log_den`, `log_den_err` and `dc`;
`compute_density_gCorr` freshly assigns `log_den` and `log_den_err` but
leaves `dc` unchanged; `kstarNN_gCorr`, the SGD path of `PAk_gCorr` and
`PAk_gCorr_flat` assign only `log_den`, leaving `log_den_err` and `dc`
unchanged; the Gaussian path of `PAk_gCorr` assigns `log_den` and
`log_den_err`, and on the default call (no precomputed PAk input) also
freshly assigns `dc` through its internal `compute_density_PAk` call,
while with a supplied `(log_den_PAk, log_den_PAk_err)` pair it leaves
`dc` unchanged. -/
theorem density_output_fields (s : DE) (k : ℕ)
    (nr : ℝ → ℕ → (ℕ → ℝ) → ℕ → ℝ)
    (ml1 ml2 : ℝ → ℕ → (ℕ → ℝ) → (ℕ → ℝ) → ℝ)
    (mx : (ℕ → ℝ) → (ℕ → ℕ) → (ℕ → ℝ) → (ℕ → ℕ → ℕ) →
      (ℕ → ℕ → ℝ) → (ℕ → ℕ → ℝ) → ℝ → ℕ → ℝ)
    (mwp : (ℕ → ℝ) → (ℕ → ℕ) → (ℕ → ℕ → ℝ) → (ℕ → ℕ → ℕ) →
      (ℕ → ℕ → ℝ) → (ℕ → ℕ → ℝ) → ℝ → ℕ → ℝ)
    (mwf : (ℕ → ℝ) → (ℕ → ℝ) → (ℕ → ℕ) → (ℕ → ℕ → ℝ) →
      (ℕ → ℕ → ℕ) → ℝ → Bool → ℕ → ℝ)
    (solve : (ℕ → ℕ → ℝ) → (ℕ → ℝ) → ℕ → ℝ)
    (pinv : (ℕ → ℕ → ℝ) → ℕ → ℕ → ℝ) (uv : Bool) (alpha : ℝ)
    (onlyNN : Bool) (pin : Option ((ℕ → ℝ) × (ℕ → ℝ))) :
    ((compute_density_kNN s k).log_den =
        some (fun i => knn_log_den_raw s k i - Real.log s.N) ∧
      (compute_density_kNN s k).log_den_err =
        some (fun _ => 1 / Real.sqrt k) ∧
      (compute_density_kNN s k).dc = some (fun i => s.distances i k)) ∧
    ((compute_density_kstarNN s).log_den =
        some (fun i => kstarNN_log_den_raw s i - Real.log s.N) ∧
      (compute_density_kstarNN s).log_den_err =
        some (fun i => 1 / Real.sqrt (s.ks i)) ∧
      (compute_density_kstarNN s).dc =
        some (fun i => s.distances i (s.ks i))) ∧
    ((compute_density_kpeaks s).log_den =
        some (fun i => (s.ks i : ℝ)) ∧
      (compute_density_kpeaks s).log_den_err.isSome = true ∧
      (compute_density_kpeaks s).dc =
        some (fun i => s.distances i (s.ks i))) ∧
    ((compute_density_PAk nr s).log_den =
        some (fun i => pakLogDenPre s nr i - Real.log s.N) ∧
      (compute_density_PAk nr s).log_den_err.isSome = true ∧
      (compute_density_PAk nr s).dc =
        some (fun i => s.distances i (s.ks i))) ∧
    ((compute_density_dF_PAk s).log_den =
        some (fun i =>
          Real.log (s.ks i) - Real.log (prefactor s.intrinsic_dim) -
            Real.log (dfpak_corrected_rk s i) - Real.log s.N) ∧
      (compute_density_dF_PAk s).log_den_err =
        some (fun i => 1 / Real.sqrt (s.ks i)) ∧
      (compute_density_dF_PAk s).dc =
        some (fun i => s.distances i (s.ks i))) ∧
    ((compute_density_gPAk ml1 ml2 s GPakMode.standard).log_den =
        some (fun i =>
          Real.log (s.ks i) - Real.log (prefactor s.intrinsic_dim) -
            Real.log (gpak_corrected_rk s i) - Real.log s.N) ∧
      (compute_density_gPAk ml1 ml2 s GPakMode.standard).log_den_err =
        some (fun i => pak_err s i) ∧
      (compute_density_gPAk ml1 ml2 s GPakMode.standard).dc =
        some (fun i => s.distances i (s.ks i))) ∧
    ((compute_density_gPAk ml1 ml2 s GPakMode.gPAkPlus).log_den =
        some (fun i => gpakLogDenPre s ml1 i - Real.log s.N) ∧
      (compute_density_gPAk ml1 ml2 s GPakMode.gPAkPlus).log_den_err =
        some (fun i => 1 / Real.sqrt (s.ks i)) ∧
      (compute_density_gPAk ml1 ml2 s GPakMode.gPAkPlus).dc =
        some (fun i => s.distances i (s.ks i))) ∧
    ((compute_density_gPAk ml1 ml2 s GPakMode.gPlusPAk).log_den =
        some (fun i => gpakLogDenPre s ml2 i - Real.log s.N) ∧
      (compute_density_gPAk ml1 ml2 s GPakMode.gPlusPAk).log_den_err =
        some (fun i => 1 / Real.sqrt (s.ks i)) ∧
      (compute_density_gPAk ml1 ml2 s GPakMode.gPlusPAk).dc =
        some (fun i => s.distances i (s.ks i))) ∧
    ((compute_density_corr_kstarNN pinv s).log_den =
        some (fun i => kstarNN_log_den_raw s i - Real.log s.N) ∧
      (compute_density_corr_kstarNN pinv s).log_den_err =
        some (fun i => Real.sqrt (pinv (corrKstarNN_A s) i i)) ∧
      (compute_density_corr_kstarNN pinv s).dc =
        some (fun i => s.distances i (s.ks i))) ∧
    ((compute_density_dF_PAk_gCorr solve pinv s uv alpha).log_den =
        some (solve (dfgA s uv alpha) (dfgB s uv alpha)) ∧
      (compute_density_dF_PAk_gCorr solve pinv s uv alpha).log_den_err =
        some (fun i => Real.sqrt (pinv (dfgA s uv alpha) i i)) ∧
      (compute_density_dF_PAk_gCorr solve pinv s uv alpha).dc =
        some (fun i => s.distances i (s.ks i))) ∧
    ((compute_density_gCorr solve pinv s uv).log_den =
        some (solve (gcorrA s uv) (gcorrDeltaFcum s uv)) ∧
      (compute_density_gCorr solve pinv s uv).log_den_err =
        some (fun i => Real.sqrt (pinv (gcorrA s uv) i i)) ∧
      (compute_density_gCorr solve pinv s uv).dc = s.dc) ∧
    ((compute_density_kstarNN_gCorr mx s alpha).log_den.isSome = true ∧
      (compute_density_kstarNN_gCorr mx s alpha).log_den_err =
        s.log_den_err ∧
      (compute_density_kstarNN_gCorr mx s alpha).dc = s.dc) ∧
    ((compute_density_PAk_gCorr nr solve pinv mwp s true alpha
          none).log_den =
        some (solve (pakGcorrA (pakGcorrBase nr s none) alpha)
          (pakGcorrB (pakGcorrBase nr s none) alpha)) ∧
      (compute_density_PAk_gCorr nr solve pinv mwp s true alpha
          none).log_den_err.isSome = true ∧
      (compute_density_PAk_gCorr nr solve pinv mwp s true alpha
          none).dc = some (fun i => s.distances i (s.ks i))) ∧
    (∀ p, (compute_density_PAk_gCorr nr solve pinv mwp s true alpha
        (some p)).dc = s.dc) ∧
    ((compute_density_PAk_gCorr nr solve pinv mwp s false alpha
          pin).log_den.isSome = true ∧
      (compute_density_PAk_gCorr nr solve pinv mwp s false alpha
          pin).log_den_err = s.log_den_err ∧
      (compute_density_PAk_gCorr nr solve pinv mwp s false alpha
          pin).dc = s.dc) ∧
    ((compute_density_PAk_gCorr_flat mwf s alpha onlyNN).log_den.isSome
        = true ∧
      (compute_density_PAk_gCorr_flat mwf s alpha onlyNN).log_den_err =
        s.log_den_err ∧
      (compute_density_PAk_gCorr_flat mwf s alpha onlyNN).dc = s.dc) := by
  exact ⟨⟨rfl, rfl, rfl⟩, ⟨rfl, rfl, rfl⟩, ⟨rfl, rfl, rfl⟩,
    ⟨rfl, rfl, rfl⟩, ⟨rfl, rfl, rfl⟩, ⟨rfl, rfl, rfl⟩,
    ⟨rfl, rfl, rfl⟩, ⟨rfl, rfl, rfl⟩, ⟨rfl, rfl, rfl⟩,
    ⟨rfl, rfl, rfl⟩, ⟨rfl, rfl, rfl⟩, ⟨rfl, rfl, rfl⟩,
    ⟨rfl, rfl, rfl⟩, fun p => rfl, ⟨rfl, rfl, rfl⟩, ⟨rfl, rfl, rfl⟩⟩

/-- C9: whenever `Base.__init__` receives a `(distances, indices)` tuple
whose shape assertion passes (and no coordinates), it raises `NameError`
before the object is fully initialized, because the conditional
expression assigning `dist_indices` reads the never-defined name
`is_ndarray`. -/
theorem base_init_tuple_name_error
    (fads : List (List ℤ) → ℕ → List (List ℤ) × List (List ℤ))
    (D I : List (List ℤ)) (maxk : Option ℕ) (rip : Bool)
    (h : shape0 D = shape0 I) :
    base_init fads none (some (DistArg.pair D I)) maxk rip =
      Except.error PyError.nameError := by
  show distsBlockPair D I { X := none, maxk := maxk } =
    Except.error PyError.nameError
  rw [distsBlockPair, if_pos h]

/-- A concrete stand-in for the external
`from_all_distances_to_nndistances` helper. -/
def fads0 : List (List ℤ) → ℕ → List (List ℤ) × List (List ℤ) :=
  fun _ _ => ([], [])

/-- Witness for C9 on a concrete 1x1 tuple. -/
theorem base_init_tuple_name_error_witness :
    shape0 [[(0 : ℤ)]] = shape0 [[(0 : ℤ)]] ∧
      base_init fads0 none (some (DistArg.pair [[(0 : ℤ)]] [[(0 : ℤ)]]))
        none true = Except.error PyError.nameError :=
  ⟨rfl, base_init_tuple_name_error fads0 _ _ none true rfl⟩

/-- C10 (code bug): on the duplicate point cloud `[[0, 1], [0, 1]]`,
`Base.__init__` with `remove_identical_points=True` keeps BOTH identical
rows and reports `Nele = 2`: `np.unique` without `axis=0` flattens the
array to `[0, 1, 0, 1]`, whose first-occurrence indices `[0, 1]` then
select both rows.  The documented intent (remove duplicate points, keep
first occurrences, `Nele` = number of unique points, here 1) is
violated. -/
theorem base_init_keeps_duplicate_rows :
    base_init fads0 (some [[0, 1], [0, 1]]) none none true =
        Except.ok { X := some [[0, 1], [0, 1]]
                    maxk := some 1
                    dims := some 2
                    Nele := some 2 } ∧
      ¬List.Pairwise (fun a b => a ≠ b)
        ([[0, 1], [0, 1]] : List (List ℤ)) := by
  exact ⟨rfl, by decide⟩
